import Mathlib

/-!
Verification development for the keep-alive worker supervisor bot
(`main.js` + the worker client script) and the JSON-file document store it
uses.  All definitions are shallow embeddings of the JavaScript source;
line numbers in doc comments refer to `main.js`.  The Arabic status
strings of the source are represented by the constructors of `Status`
(each doc comment gives the original literal).
-/

/-! ## JSON values and objects (the document store's record shape) -/

/-- A JSON primitive value, as stored by the collections.  These compare by
value under JS `===`. -/
inductive Prim where
  | str (s : String)
  | int (n : Int)
  | bool (b : Bool)
deriving DecidableEq

/-- A stored JSON value: a primitive, an array of primitives, or `null`.
The repository's collections only hold values of these shapes (e.g.
`requiredChannels` is an array of channel-name strings). -/
inductive Val where
  | prim (p : Prim)
  | arr (l : List Prim)
  | vnull
deriving DecidableEq

/-- A JS object, as an ordered list of key/value fields (no duplicate keys,
as produced by `JSON.parse` of the backing files). -/
abbrev Obj := List (String × Val)

/-- Field access `o[k]`: `none` models JS `undefined` (absent field). -/
def objGet (o : Obj) (k : String) : Option Val :=
  (o.find? (fun kv => kv.1 == k)).map (fun kv => kv.2)

/-- Field assignment `o[k] = v`: overwrites the field in place when present,
appends it otherwise (JS property order semantics). -/
def objSet (o : Obj) (k : String) (v : Val) : Obj :=
  if o.any (fun kv => kv.1 == k) then
    o.map (fun kv => if kv.1 == k then (kv.1, v) else kv)
  else o ++ [(k, v)]

/-- JS `===` on stored values.  Primitives compare by value; two separately
materialised arrays are never `===` (reference equality), and every query
issued in the source compares primitives only, so array/array comparison is
`false` here. -/
def jsStrictEq : Val → Val → Bool
  | .prim p, .prim q => p == q
  | .vnull, .vnull => true
  | _, _ => false

/-- JS `===` lifted to possibly-absent values; `undefined === undefined`
is `true`. -/
def jsStrictEqOpt : Option Val → Option Val → Bool
  | some a, some b => jsStrictEq a b
  | none, none => true
  | _, _ => false

/-- The exact-match predicate used by `findOne` / `find` / `deleteOne`
(`main.js` 187, 203, 259, 323):
`Object.keys(query).every(key => rec[key] === query[key])`. -/
def matchesQuery (rec q : Obj) : Bool :=
  q.all (fun kv => jsStrictEqOpt (objGet rec kv.1) (some kv.2))

/-! ## `deleteOne` (claim C10) -/

/-- `Servers.deleteOne` (`main.js` 256-265) and `Versions.deleteOne`
(`main.js` 320-329), whose bodies are identical up to the collection name:
keep only the records that do NOT match the query, and report
`deletedCount = 1` when the collection shrank, `deletedCount = 0`
otherwise. -/
def deleteOne (records : List Obj) (q : Obj) : Nat × List Obj :=
  let remaining := records.filter (fun r => !(matchesQuery r q))
  if remaining.length < records.length then (1, remaining) else (0, remaining)

/-! ## `Versions.create` (claim C6) -/

/-- A version record as created by the admin screens and the default seed:
`{ type, protocol, name }` (`main.js` 380). -/
structure VersionRec where
  vtype : String
  protocol : Int
  name : String
deriving DecidableEq

/-- `Versions.create` (`main.js` 308-319): if some stored version already has
the same protocol number, an `Error('Duplicate key')` with `code = 11000` is
thrown before any write, so the collection is returned unchanged; otherwise
the record is pushed and the collection written. -/
def versionsCreate (versions : List VersionRec) (v : VersionRec) :
    Except Nat Unit × List VersionRec :=
  if versions.any (fun w => w.protocol == v.protocol) then
    (Except.error 11000, versions)
  else
    (Except.ok (), versions ++ [v])

/-! ## `loadDb` (claim C7) -/

/-- Outcome of one `fs.readFile` + `JSON.parse` attempt inside
`readWithDefault` (`main.js` 28-39). -/
inductive ReadResult (α : Type) where
  | ok (data : α)
  | enoent
  | syntaxError
  | otherError
deriving DecidableEq

/-- `readWithDefault` (`main.js` 28-39): a missing file
(`error.code === 'ENOENT'`) or a corrupt one (`JSON.parse` throws a
`SyntaxError`) falls back to the supplied default; ANY other error is
rethrown (`throw error`). -/
def readWithDefault {α : Type} : ReadResult α → α → Except Unit α
  | .ok d, _ => .ok d
  | .enoent, d => .ok d
  | .syntaxError, d => .ok d
  | .otherError, _ => .error ()

/-- `loadDb` (`main.js` 24-50): creates the data directory, then loads the
four collections through `readWithDefault`.  A failed `mkdir` or a rethrown
read error reaches the outer `catch`, which logs `Fatal` and calls
`process.exit(1)` — modelled by `none`. -/
def loadDb {α : Type} (mkdirOk : Bool) (defCfg defUsers defServers defVers : α)
    (rc ru rs rv : ReadResult α) : Option (α × α × α × α) :=
  if !mkdirOk then none
  else
    match readWithDefault rc defCfg, readWithDefault ru defUsers,
          readWithDefault rs defServers, readWithDefault rv defVers with
    | .ok c, .ok u, .ok s, .ok v => some (c, u, s, v)
    | _, _, _, _ => none

/-! ## `updateOne` for the three collections (claim C9) -/

/-- JS object spread `{ ...rec, ...payload }` (`main.js` 207, 252): keys of
the payload override, existing keys keep their position, new keys are
appended in payload order. -/
def spreadMerge (rec payload : Obj) : Obj :=
  rec.map (fun kv =>
    match objGet payload kv.1 with
    | some v => (kv.1, v)
    | none => kv) ++
  payload.filter (fun kv => !(rec.any (fun kv2 => kv2.1 == kv.1)))

/-- `Users.updateOne` (`main.js` 201-210): locates the record by full query
match, reads the update's first key into `operation`
(the comment there says `// $set, $addToSet etc.`) and then spread-merges
the payload into the record REGARDLESS of that verb. -/
def usersUpdateOne (users : List Obj) (query : Obj) (operation : String)
    (payload : Obj) : List Obj :=
  match users.findIdx? (fun u => matchesQuery u query) with
  | some i => users.set i (spreadMerge (users.getD i []) payload)
  | none => users

/-- `Servers.updateOne` (`main.js` 246-255): locates the record by
`s._id === query._id`, reads the update's first key into `operation` and
spread-merges the payload regardless of that verb. -/
def serversUpdateOne (servers : List Obj) (query : Obj) (operation : String)
    (payload : Obj) : List Obj :=
  match servers.findIdx? (fun s => jsStrictEqOpt (objGet s "_id") (objGet query "_id")) with
  | some i => servers.set i (spreadMerge (servers.getD i []) payload)
  | none => servers

/-- An update command for `Config.updateOne`, which (unlike the other two
collections) really dispatches on the verb.  Every call site passes exactly
one verb. -/
inductive CfgUpdate where
  | set (value : Val)
  | addToSet (value : Prim)
  | pull (value : Prim)
  | setOnInsert (value : Val)
deriving DecidableEq

/-- JS truthiness test on a possibly-absent stored value (`!config[key]`):
`undefined`, `null`, `0`, the empty string and `false` are falsy; every
array is truthy. -/
def truthy : Option Val → Bool
  | none => false
  | some .vnull => false
  | some (.prim (.int n)) => n != 0
  | some (.prim (.str s)) => s != ""
  | some (.prim (.bool b)) => b
  | some (.arr _) => true

/-- `Config.updateOne` (`main.js` 278-300).  `$set` stores the value under
the query key; `$addToSet` replaces a falsy current value by `[]` and then
pushes the value unless `includes` finds it; `$pull` filters the current
array by `!==`; `$setOnInsert` writes only under `upsert` when the key is
absent.  A truthy non-array value under `$addToSet`/`$pull` makes the
source throw a `TypeError` (`includes`/`filter` undefined) — modelled as
`none`. -/
def configUpdateOne (config : Obj) (key : String) (u : CfgUpdate)
    (upsert : Bool) : Option Obj :=
  match u with
  | .set v => some (objSet config key v)
  | .addToSet v =>
      match objGet config key, truthy (objGet config key) with
      | _, false => some (objSet config key (.arr [v]))
      | some (.arr l), true =>
          if v ∈ l then some config else some (objSet config key (.arr (l ++ [v])))
      | _, true => none
  | .pull v =>
      match objGet config key, truthy (objGet config key) with
      | _, false => some config
      | some (.arr l), true => some (objSet config key (.arr (l.filter (fun x => x != v))))
      | _, true => none
  | .setOnInsert v =>
      if upsert && (objGet config key).isNone then some (objSet config key v)
      else some config

/-! ## Display names and `reorderServers` (claim C8) -/

/-- The fields of a `ManagedTarget` record that creation, deletion and
renaming act on (`Servers.create`, `main.js` 232-245; the remaining fields
— ip, port, status, … — do not influence naming).  `Servers.create` never
writes a `createdAt` field, so it is `none` for every record the source
creates. -/
structure Srv where
  sid : Nat
  userId : Int
  serverName : String
  createdAt : Option String := none
deriving DecidableEq, Inhabited

/-- Digit-run parsing: `some n` when the characters are a non-empty digit
string (the `(\d+)` group), `none` otherwise. -/
def parseDigits (cs : List Char) : Option Nat :=
  if cs.isEmpty then none
  else cs.foldl (fun acc c =>
    match acc with
    | none => none
    | some n => if c.isDigit then some (n * 10 + (c.toNat - '0'.toNat)) else none)
    (some 0)

/-- The regex extraction `serverName.match(/^S-(\d+)$/)` + `parseInt` of the
add-server wizard (`main.js` 668-673). -/
def parseSNum (name : String) : Option Nat :=
  match name.data with
  | 'S' :: '-' :: rest => parseDigits rest
  | _ => none

/-- Auto-assignment of a display name on creation (`main.js` 664-681): one
past the largest `S-n` already taken by this owner (`Math.max(...taken)+1`),
`S-1` when the owner has none. -/
def nextServerName (userServers : List Srv) : String :=
  let takenNumbers := userServers.filterMap (fun s => parseSNum s.serverName)
  let newNumber := if takenNumbers.isEmpty then 1 else takenNumbers.foldl max 0 + 1
  "S-" ++ toString newNumber

/-- `Servers.create` restricted to the naming-relevant fields (`main.js`
232-245): push the new record at the end of the collection. -/
def serversCreate (servers : List Srv) (newId : Nat) (uid : Int)
    (name : String) : List Srv :=
  servers ++ [{ sid := newId, userId := uid, serverName := name }]

/-- The deletion performed by the `delete_do` action (`main.js` 1740):
`Servers.deleteOne({ _id, userId })` removes the records matching both
fields. -/
def serversDeleteById (servers : List Srv) (id : Nat) (uid : Int) : List Srv :=
  servers.filter (fun s => !(s.sid == id && s.userId == uid))

/-- `Servers.updateOne({ _id }, { $set: { serverName } })` as invoked by
`reorderServers` (`main.js` 399-402): replace the serverName of the first
record carrying this id. -/
def renameById (l : List Srv) (id : Nat) (newName : String) : List Srv :=
  match l with
  | [] => []
  | s :: rest =>
      if s.sid == id then { s with serverName := newName } :: rest
      else s :: renameById rest id newName

/-- The comparator of `reorderServers` (`main.js` 389-394): compares
creation dates when both records carry one (ISO strings, so lexicographic
order is chronological) and reports equal otherwise. -/
def createdBefore (a b : Srv) : Bool :=
  match a.createdAt, b.createdAt with
  | some x, some y => decide (x < y)
  | _, _ => false

/-- Stable insertion used to model `Array.prototype.sort` with the
comparator above: an element is placed before the first strictly-later
element, after everything that compares equal (JS sort is stable). -/
def insertByCreated (x : Srv) : List Srv → List Srv
  | [] => [x]
  | y :: ys => if createdBefore x y then x :: y :: ys else y :: insertByCreated x ys

/-- The `servers.sort(...)` call of `reorderServers`.  With the source's
records (`createdAt` absent) the comparator always reports equal and the
list is returned as-is, like the stable JS sort. -/
def sortByCreated (l : List Srv) : List Srv :=
  l.foldl (fun acc s => insertByCreated s acc) []

/-- The renaming loop of `reorderServers` (`main.js` 395-405):
`expected` starts at 1 and each of the owner's servers, in sorted order, is
renamed to `S-expected` unless it already carries that name. -/
def renameSeq (l : List Srv) (expected : Nat) : List Srv → List Srv
  | [] => l
  | s :: rest =>
      let newName := "S-" ++ toString expected
      let l1 := if s.serverName == newName then l else renameById l s.sid newName
      renameSeq l1 (expected + 1) rest

/-- `reorderServers` (`main.js` 387-406): sort the owner's servers by
creation date and rename them to the dense sequence `S-1, S-2, …`. -/
def reorderServers (servers : List Srv) (uid : Int) : List Srv :=
  renameSeq servers 1 (sortByCreated (servers.filter (fun s => s.userId == uid)))

/-- The serverName of the (first) record with the given id, `none` when the
id is absent. -/
def nameOf (l : List Srv) (id : Nat) : Option String :=
  (l.find? (fun s => s.sid == id)).map (fun s => s.serverName)

/-! ## The worker process supervisor (claims C1-C5)

One managed target, its OS worker processes and the event-loop tasks that
act on it.  Each segment function below covers one maximal run of
`startBot` / `startBedrockBot` / `stopBot` / `handleBotExit` between real
suspension points (network awaits: the Telegram edits, the
`statusBedrock` probe, the notification sends).  The store operations
themselves never await real I/O (`writeDb` only schedules a deferred
flush), so each segment executes atomically on the event loop. -/

/-- The status strings `main.js` stores in a server record. -/
inductive Status where
  /-- Source literal `'متوقف'` — stopped/idle. -/
  | stopped
  /-- Source literal `'جاري البحث...'` — searching; the spec's `resolving`. -/
  | searching
  /-- Source literal `'إصدار غير مدعوم'` — unsupported protocol version. -/
  | unsupportedVersion
  /-- Source literal `'جاري التشغيل...'` — starting; the spec's `launching`. -/
  | starting
  /-- Source literal `'نشط'` — active; the spec's `running`. -/
  | active
  /-- Source literal `'فشل الاتصال'` — connection failed. -/
  | connFailed
deriving DecidableEq

/-- The supervisor-relevant fields of one managed target's record. -/
structure BotRec where
  serverType : String
  status : Status
  botPid : Option Nat
  autoRestart : Bool
  notifyOnError : Bool
deriving DecidableEq

/-- A pending event-loop continuation for this target. -/
inductive TaskK where
  /-- A `startBot` invocation (user action or fired restart timer) that has
  not yet run its first segment. -/
  | startReq
  /-- A start suspended at the `statusBedrock` discovery probe
  (`main.js` 460). -/
  | startProbe
  /-- A start that passed the probe, already marked `'جاري التشغيل...'`, and
  is suspended at the Telegram edit before spawning (`main.js` 473-477). -/
  | startSpawn
  /-- A queued `handleBotExit` call: the child's `exit` (497-500) or `error`
  (502-505) event. -/
  | exitEvt
  /-- The tail of `handleBotExit` after its record update, suspended at the
  notification sends, carrying the snapshot flags it read at entry
  (`main.js` 548-576). -/
  | exitNotify (autoRestart : Bool) (notifyOnError : Bool)
  /-- A pending `stopBot` invocation. -/
  | stopReq
deriving DecidableEq

/-- The supervisor state for one managed target. -/
structure Sys where
  /-- The target's stored record. -/
  server : BotRec
  /-- Pids of the OS worker processes currently alive for this target. -/
  live : List Nat
  /-- Source of fresh pids. -/
  nextPid : Nat
  /-- Every pid `spawn` ever handed out for this target. -/
  spawned : List Nat
  /-- Pending event-loop tasks. -/
  tasks : List TaskK
  /-- Pending 5-second auto-restart timers (`main.js` 569-571). -/
  restartTimers : Nat
  /-- Disconnect notifications sent to the owner (`main.js` 550-557). -/
  notices : Nat
  /-- `'⚠️ البوت يعمل بالفعل'` already-running rejections (`main.js` 437). -/
  alreadyRejects : Nat
deriving DecidableEq

/-- The guard of `startBot` (`main.js` 432-443): when a `botPid` is stored,
probe it with `process.kill(pid, 0)`; a live pid blocks the start.  The
guard never reads `status`, and a dead stored pid is neither cleared nor
corrected — the code just falls through. -/
def startGuardBlocked (s : Sys) : Bool :=
  match s.server.botPid with
  | some p => decide (p ∈ s.live)
  | none => false

/-- Drop one occurrence of a finished task. -/
def removeTask (s : Sys) (t : TaskK) : Sys :=
  { s with tasks := s.tasks.erase t }

/-- `startBot` rejecting a java target (`main.js` 425-430): reply only, no
record change. -/
def startJavaF (s : Sys) : Sys :=
  removeTask s .startReq

/-- `startBot` rejecting an already-running target (`main.js` 432-443):
reply `'⚠️ البوت يعمل بالفعل على هذا السيرفر.'`, no record change, no
spawn. -/
def startAlreadyF (s : Sys) : Sys :=
  { removeTask s .startReq with alreadyRejects := s.alreadyRejects + 1 }

/-- `startBot` past its guard (`main.js` 446-460): set
status `'جاري البحث...'` (`botPid` untouched) and suspend at the
`statusBedrock` probe. -/
def startToProbeF (s : Sys) : Sys :=
  { s with server := { s.server with status := .searching },
           tasks := (s.tasks.erase .startReq) ++ [.startProbe] }

/-- The `catch` of `startBedrockBot` (`main.js` 525-533) on a probe
failure: status `'فشل الاتصال'`, `botPid` cleared. -/
def probeFailF (s : Sys) : Sys :=
  { s with server := { s.server with status := .connFailed, botPid := none },
           tasks := s.tasks.erase .startProbe }

/-- Discovered protocol version not in the versions table
(`main.js` 464-470): status `'إصدار غير مدعوم'`; `botPid` is NOT
touched. -/
def probeUnsupportedF (s : Sys) : Sys :=
  { s with server := { s.server with status := .unsupportedVersion },
           tasks := s.tasks.erase .startProbe }

/-- Probe succeeded with a supported version (`main.js` 472-477): status
`'جاري التشغيل...'`, then suspend at the Telegram edit before the spawn. -/
def probeOkF (s : Sys) : Sys :=
  { s with server := { s.server with status := .starting },
           tasks := (s.tasks.erase .startProbe) ++ [.startSpawn] }

/-- `spawn` succeeds (`main.js` 479-507): a fresh pid starts living and one
record update marks status `'نشط'` with that pid. -/
def spawnOkF (s : Sys) : Sys :=
  { s with server := { s.server with status := .active, botPid := some s.nextPid },
           live := s.live ++ [s.nextPid],
           spawned := s.spawned ++ [s.nextPid],
           nextPid := s.nextPid + 1,
           tasks := s.tasks.erase .startSpawn }

/-- `spawn` fails asynchronously (the usual failure mode, e.g. ENOENT): the
failed child's `pid` is `undefined`, and its `error` event (`main.js`
502-505) is a later macrotask, so line 507 still records status `'نشط'`
first — with `botPid: undefined`, since no pid was ever handed out; the
error handler then invokes `handleBotExit`, modelled by the queued exit
event.  No process ever lives. -/
def spawnFailAsyncF (s : Sys) : Sys :=
  { s with server := { s.server with status := .active, botPid := none },
           tasks := (s.tasks.erase .startSpawn) ++ [.exitEvt] }

/-- `spawn` throws synchronously: caught by the same `catch` as the probe
(`main.js` 525-533), status `'فشل الاتصال'`, `botPid` cleared, nothing
recorded as running. -/
def spawnFailSyncF (s : Sys) : Sys :=
  { s with server := { s.server with status := .connFailed, botPid := none },
           tasks := s.tasks.erase .startSpawn }

/-- A live worker process exits on its own; its `exit` handler
(`main.js` 497-500) queues `handleBotExit`. -/
def procDiesF (s : Sys) (p : Nat) : Sys :=
  { s with live := s.live.erase p, tasks := s.tasks ++ [.exitEvt] }

/-- The duplicate guard of `handleBotExit` (`main.js` 540-543): status is
not `'نشط'`, so the exit is considered already handled and ignored. -/
def exitIgnoredF (s : Sys) : Sys :=
  removeTask s .exitEvt

/-- The head of `handleBotExit` on a running target (`main.js` 545-546):
one update sets status `'متوقف'` and clears `botPid`; the tail continues
with the snapshot flags read at entry. -/
def exitHandleF (s : Sys) : Sys :=
  { s with server := { s.server with status := .stopped, botPid := none },
           tasks := (s.tasks.erase .exitEvt) ++
             [.exitNotify s.server.autoRestart s.server.notifyOnError] }

/-- The tail of `handleBotExit` (`main.js` 548-576): send the disconnect
notice when `notifyOnError` was set, and schedule
`setTimeout(() => startBot(null, serverId), 5000)` when `autoRestart` was
set — the timer is never cancelled by anything. -/
def exitFinishF (s : Sys) (ar notif : Bool) : Sys :=
  { s with notices := s.notices + (if notif then 1 else 0),
           restartTimers := s.restartTimers + (if ar then 1 else 0),
           tasks := s.tasks.erase (.exitNotify ar notif) }

/-- A pending restart timer fires: it simply calls `startBot` again
(`main.js` 569-571) without re-checking `autoRestart`. -/
def timerFiresF (s : Sys) : Sys :=
  { s with restartTimers := s.restartTimers - 1, tasks := s.tasks ++ [.startReq] }

/-- `stopBot` (`main.js` 599-623): when a pid is stored, send SIGTERM —
delivery to a live process makes the client exit promptly (its SIGTERM
handler calls `process.exit(0)`), queueing its exit event; delivery to a
dead pid throws and is swallowed (`main.js` 612-614).  Then one update
sets status `'متوقف'`, `autoRestart := false`, `botPid := null`,
unconditionally.  The whole run is one atomic segment. -/
def stopRunF (s : Sys) : Sys :=
  let killed := match s.server.botPid with
    | some p => decide (p ∈ s.live)
    | none => false
  let rec1 := { s.server with status := Status.stopped, autoRestart := false,
                              botPid := none }
  { s with server := rec1,
           live := (match s.server.botPid with
                    | some p => s.live.erase p
                    | none => s.live),
           tasks := (s.tasks.erase .stopReq) ++ (if killed then [.exitEvt] else []) }

/-- One event-loop step of the supervisor: some pending task runs its next
segment, a process dies, or a timer fires.  Each constructor's side
conditions are the branch conditions of the source. -/
inductive Step : Sys → Sys → Prop where
  | startJava (s : Sys) (h : TaskK.startReq ∈ s.tasks)
      (hj : s.server.serverType = "java") : Step s (startJavaF s)
  | startAlready (s : Sys) (p : Nat) (h : TaskK.startReq ∈ s.tasks)
      (hj : s.server.serverType ≠ "java") (hp : s.server.botPid = some p)
      (hl : p ∈ s.live) : Step s (startAlreadyF s)
  | startToProbe (s : Sys) (h : TaskK.startReq ∈ s.tasks)
      (hb : s.server.serverType = "bedrock")
      (hg : startGuardBlocked s = false) : Step s (startToProbeF s)
  | probeFail (s : Sys) (h : TaskK.startProbe ∈ s.tasks) : Step s (probeFailF s)
  | probeUnsupported (s : Sys) (h : TaskK.startProbe ∈ s.tasks) :
      Step s (probeUnsupportedF s)
  | probeOk (s : Sys) (h : TaskK.startProbe ∈ s.tasks) : Step s (probeOkF s)
  | spawnOk (s : Sys) (h : TaskK.startSpawn ∈ s.tasks) : Step s (spawnOkF s)
  | spawnFailAsync (s : Sys) (h : TaskK.startSpawn ∈ s.tasks) :
      Step s (spawnFailAsyncF s)
  | spawnFailSync (s : Sys) (h : TaskK.startSpawn ∈ s.tasks) :
      Step s (spawnFailSyncF s)
  | procDies (s : Sys) (p : Nat) (h : p ∈ s.live) : Step s (procDiesF s p)
  | exitIgnored (s : Sys) (h : TaskK.exitEvt ∈ s.tasks)
      (hs : s.server.status ≠ Status.active) : Step s (exitIgnoredF s)
  | exitHandle (s : Sys) (h : TaskK.exitEvt ∈ s.tasks)
      (hs : s.server.status = Status.active) : Step s (exitHandleF s)
  | exitFinish (s : Sys) (ar notif : Bool)
      (h : TaskK.exitNotify ar notif ∈ s.tasks) : Step s (exitFinishF s ar notif)
  | timerFires (s : Sys) (h : 0 < s.restartTimers) : Step s (timerFiresF s)
  | stopRun (s : Sys) (h : TaskK.stopReq ∈ s.tasks) : Step s (stopRunF s)

/-- Reachability in the supervisor's event-loop semantics. -/
def Reachable : Sys → Sys → Prop := Relation.ReflTransGen Step

/-! ## Concrete executions used by claims C1-C4 -/

/-- An idle bedrock target with no stored pid and two pending `startBot`
invocations issued back-to-back (two Telegram updates). -/
def c1Init : Sys :=
  { server := { serverType := "bedrock", status := .stopped, botPid := none,
                autoRestart := false, notifyOnError := false },
    live := [], nextPid := 1, spawned := [], tasks := [.startReq, .startReq],
    restartTimers := 0, notices := 0, alreadyRejects := 0 }

/-- Both starts pass the `botPid` guard before either spawns (the second
guard check runs while the first call waits on its discovery probe), then
each probe succeeds and each call spawns its own worker. -/
def c1Final : Sys :=
  spawnOkF (probeOkF (spawnOkF (probeOkF (startToProbeF (startToProbeF c1Init)))))

/-- A running target (worker pid 1) whose owner has auto-restart and
notifications enabled, with a pending `stopBot` invocation. -/
def c2Init : Sys :=
  { server := { serverType := "bedrock", status := .active, botPid := some 1,
                autoRestart := true, notifyOnError := true },
    live := [1], nextPid := 2, spawned := [1], tasks := [.stopReq],
    restartTimers := 0, notices := 0, alreadyRejects := 0 }

/-- The worker dies on its own and its exit is fully handled (scheduling
the 5-second restart timer) just before the user's `stopBot` runs; the
timer then fires and the restarted `startBot` succeeds. -/
def c2Final : Sys :=
  spawnOkF (probeOkF (startToProbeF (timerFiresF (stopRunF
    (exitFinishF (exitHandleF (procDiesF c2Init 1)) true true)))))

/-- The state of `c2Final` right after the user's stop completed: stopped,
`autoRestart` cleared, restart timer still pending. -/
def c2AfterStop : Sys :=
  stopRunF (exitFinishF (exitHandleF (procDiesF c2Init 1)) true true)

/-- Continuation of the double-start run of `c1Final`: the first worker
(pid 1) exits; `handleBotExit` sees status `'نشط'`, clears `botPid` and
finishes — while the second worker (pid 2) is still alive. -/
def c3Final : Sys :=
  exitFinishF (exitHandleF (procDiesF c1Final 1)) false false

/-- An idle bedrock target with one pending `startBot` invocation. -/
def c4Init : Sys :=
  { server := { serverType := "bedrock", status := .stopped, botPid := none,
                autoRestart := false, notifyOnError := false },
    live := [], nextPid := 1, spawned := [], tasks := [.startReq],
    restartTimers := 0, notices := 0, alreadyRejects := 0 }

/-- The probe succeeds but the spawn fails asynchronously: line 507 still
marks the record `'نشط'`, with no pid recorded (the failed child's `pid`
is `undefined`). -/
def c4Mid : Sys :=
  spawnFailAsyncF (probeOkF (startToProbeF c4Init))

/-- The queued error event then runs `handleBotExit`, which treats the
failure as an ordinary exit: back to `'متوقف'`, never any error status. -/
def c4End : Sys :=
  exitFinishF (exitHandleF c4Mid) false false

/-! ## Concrete data used by claim C8 and by witnesses -/

/-- Scenario of claim C8, step 1: first creation for owner 7 — the wizard
computes the auto-name from the owner's servers, creates, then reorders
(`main.js` 860-869). -/
def c8a : List Srv := serversCreate [] 1 7 (nextServerName [])

/-- Scenario step 2: reorder after the first creation. -/
def c8b : List Srv := reorderServers c8a 7

/-- Scenario step 3: second creation. -/
def c8c : List Srv :=
  serversCreate c8b 2 7 (nextServerName (c8b.filter (fun s => s.userId == 7)))

/-- Scenario step 4: reorder after the second creation. -/
def c8d : List Srv := reorderServers c8c 7

/-- Scenario step 5: third creation. -/
def c8e : List Srv :=
  serversCreate c8d 3 7 (nextServerName (c8d.filter (fun s => s.userId == 7)))

/-- Scenario step 6: reorder after the third creation. -/
def c8f : List Srv := reorderServers c8e 7

/-- Scenario step 7: the `delete_do` action removes the second server
(`main.js` 1740-1743). -/
def c8g : List Srv := serversDeleteById c8f 2 7

/-- Scenario result: reorder after the deletion. -/
def c8Scenario : List Srv := reorderServers c8g 7

/-- A two-server collection with gapped names, used to witness the general
density theorem. -/
def reorderWitnessList : List Srv :=
  [{ sid := 5, userId := 7, serverName := "S-9" },
   { sid := 6, userId := 7, serverName := "S-2" }]

/-- An already-idle target (all stop effects already applied), used to
witness stop idempotence. -/
def idleW : Sys :=
  { server := { serverType := "bedrock", status := .stopped, botPid := none,
                autoRestart := false, notifyOnError := true },
    live := [], nextPid := 4, spawned := [3], tasks := [.stopReq],
    restartTimers := 0, notices := 0, alreadyRejects := 0 }

/-- A target whose stored pid is already dead (signal delivery will fail
and be swallowed), used to witness stop idempotence. -/
def staleW : Sys :=
  { server := { serverType := "bedrock", status := .active, botPid := some 3,
                autoRestart := true, notifyOnError := true },
    live := [], nextPid := 4, spawned := [3], tasks := [.stopReq],
    restartTimers := 0, notices := 0, alreadyRejects := 0 }

/-! ## Helper lemmas about `nameOf`, `renameById`, `renameSeq` and the sort -/

/-- Unfolding `nameOf` on a cons cell. -/
theorem nameOf_cons (a : Srv) (l : List Srv) (id : Nat) :
    nameOf (a :: l) id = if a.sid == id then some a.serverName else nameOf l id := by
  cases hc : (a.sid == id) with
  | true => simp [nameOf, List.find?_cons, hc]
  | false => simp [nameOf, List.find?_cons, hc]

/-- Renaming one id leaves every other id's name unchanged. -/
theorem nameOf_renameById_ne (l : List Srv) (id id' : Nat) (nm : String)
    (h : id' ≠ id) : nameOf (renameById l id nm) id' = nameOf l id' := by
  induction l with
  | nil => rfl
  | cons a rest ih =>
    by_cases ha : a.sid == id
    · have ha' : a.sid = id := by simpa using ha
      rw [renameById, if_pos ha, nameOf_cons, nameOf_cons]
      have hne : (a.sid == id') = false := by
        simp [ha']
        exact fun he => h he.symm
      simp [hne]
    · rw [renameById, if_neg ha, nameOf_cons, nameOf_cons, ih]

/-- Renaming an id that occurs in the collection records the new name. -/
theorem nameOf_renameById_eq (l : List Srv) (id : Nat) (nm x : String)
    (h : nameOf l id = some x) : nameOf (renameById l id nm) id = some nm := by
  induction l with
  | nil => simp [nameOf] at h
  | cons a rest ih =>
    by_cases ha : a.sid == id
    · rw [renameById, if_pos ha, nameOf_cons]
      simp [show (({ a with serverName := nm } : Srv).sid == id) = true from ha]
    · rw [nameOf_cons, if_neg (by simpa using ha)] at h
      rw [renameById, if_neg ha, nameOf_cons]
      simp only [ha, if_false]
      exact ih h

/-- The renaming loop leaves ids outside its worklist unchanged. -/
theorem nameOf_renameSeq_not_mem (rest : List Srv) :
    ∀ (l : List Srv) (e id : Nat), (∀ r ∈ rest, r.sid ≠ id) →
      nameOf (renameSeq l e rest) id = nameOf l id := by
  induction rest with
  | nil => intro l e id _; rfl
  | cons s rs ih =>
    intro l e id h
    rw [renameSeq]
    rw [ih _ _ _ (fun r hr => h r (List.mem_cons_of_mem _ hr))]
    by_cases hn : s.serverName == ("S-" ++ toString e)
    · simp [hn]
    · simp only [hn, if_false, Bool.false_eq_true]
      exact nameOf_renameById_ne _ _ _ _
        (fun he => (h s (List.mem_cons_self _ _)) he.symm)

/-- The renaming loop gives the record at position `i` of its worklist the
name `S-(e+i)`, provided the worklist's ids are distinct and each record's
snapshot name agrees with the collection. -/
theorem renameSeq_names (mine : List Srv) :
    ∀ (l : List Srv) (e : Nat),
      (mine.map (fun s => s.sid)).Nodup →
      (∀ r ∈ mine, nameOf l r.sid = some r.serverName) →
      ∀ i (hi : i < mine.length),
        nameOf (renameSeq l e mine) (mine.get ⟨i, hi⟩).sid =
          some ("S-" ++ toString (e + i)) := by
  induction mine with
  | nil => intro l e _ _ i hi; exact absurd hi (by simp)
  | cons s rs ih =>
    intro l e hnd hsnap i hi
    rw [List.map_cons, List.nodup_cons] at hnd
    have hhead : ∀ r ∈ rs, r.sid ≠ s.sid := by
      intro r hr he
      exact hnd.1 (he ▸ List.mem_map_of_mem _ hr)
    have hsnap1 :
        ∀ r ∈ rs,
          nameOf (if s.serverName == ("S-" ++ toString e) then l
                  else renameById l s.sid ("S-" ++ toString e)) r.sid =
            some r.serverName := by
      intro r hr
      by_cases hn : s.serverName == ("S-" ++ toString e)
      · simp only [hn, if_true]
        exact hsnap r (List.mem_cons_of_mem _ hr)
      · simp only [hn, if_false, Bool.false_eq_true]
        rw [nameOf_renameById_ne _ _ _ _ (hhead r hr)]
        exact hsnap r (List.mem_cons_of_mem _ hr)
    cases i with
    | zero =>
      rw [renameSeq]
      have hget : ((s :: rs).get ⟨0, hi⟩) = s := rfl
      rw [hget]
      rw [nameOf_renameSeq_not_mem rs _ _ _ hhead]
      by_cases hn : s.serverName == ("S-" ++ toString e)
      · simp only [hn, if_true]
        have h1 := hsnap s (List.mem_cons_self _ _)
        have h2 : s.serverName = "S-" ++ toString e := by simpa using hn
        rw [h1, h2]
        simp
      · simp only [hn, if_false, Bool.false_eq_true]
        have := nameOf_renameById_eq l s.sid ("S-" ++ toString e) s.serverName
          (hsnap s (List.mem_cons_self _ _))
        rw [this]
        simp
    | succ j =>
      rw [renameSeq]
      have hj : j < rs.length := by
        simpa using Nat.lt_of_succ_lt_succ hi
      have hget : ((s :: rs).get ⟨j + 1, hi⟩) = rs.get ⟨j, hj⟩ := rfl
      rw [hget]
      have := ih _ (e + 1) hnd.2 hsnap1 j hj
      rw [this]
      have harith : e + 1 + j = e + (j + 1) := by omega
      rw [harith]

/-- Stable insertion produces a permutation of consing. -/
theorem insertByCreated_perm (x : Srv) (l : List Srv) :
    (insertByCreated x l).Perm (x :: l) := by
  induction l with
  | nil => exact List.Perm.refl _
  | cons y ys ih =>
    rw [insertByCreated]
    by_cases h : createdBefore x y
    · simp [h]
    · simp only [h, if_false, Bool.false_eq_true]
      exact (ih.cons y).trans (List.Perm.swap x y ys)

/-- The insertion fold permutes its input onto the accumulator. -/
theorem foldl_insert_perm (xs : List Srv) :
    ∀ acc, (xs.foldl (fun a s => insertByCreated s a) acc).Perm (acc ++ xs) := by
  induction xs with
  | nil => intro acc; simp
  | cons x l ih =>
    intro acc
    rw [List.foldl_cons]
    refine (ih _).trans ?_
    have h1 : (insertByCreated x acc ++ l).Perm ((x :: acc) ++ l) :=
      (insertByCreated_perm x acc).append_right l
    have h2 : ((x :: acc) ++ l).Perm (acc ++ x :: l) := List.perm_middle.symm
    exact h1.trans h2

/-- The modelled JS sort is a permutation. -/
theorem sortByCreated_perm (l : List Srv) : (sortByCreated l).Perm l := by
  simpa using foldl_insert_perm l []

/-- In a collection with distinct ids, each record's name is found under
its own id. -/
theorem nameOf_of_mem_nodup (l : List Srv) :
    (l.map (fun s => s.sid)).Nodup → ∀ s ∈ l, nameOf l s.sid = some s.serverName := by
  induction l with
  | nil => intro _ s hs; cases hs
  | cons a rest ih =>
    intro hnd s hs
    rw [List.map_cons, List.nodup_cons] at hnd
    rw [nameOf_cons]
    rcases List.mem_cons.mp hs with h | h
    · subst h; simp
    · have hne : (a.sid == s.sid) = false := by
        simp only [beq_eq_false_iff_ne, ne_eq]
        intro he
        exact hnd.1 (he ▸ List.mem_map_of_mem _ h)
      rw [hne]
      simp only [Bool.false_eq_true, if_false]
      exact ih hnd.2 s h

/-! ## Claim C1 — single worker per target under concurrent starts -/

/-- Claim C1, counterexample.  The claim states that of two back-to-back
`start` calls on the same idle target the second is rejected with an
already-active outcome and no second process is spawned, because a status
guard is checked and set before the discovery probe.  In the code the
guard only probes `botPid`, which is still null while the first call waits
on its probe, so both calls pass the guard and both spawn: the run below
ends with two live worker processes (pids 1 and 2), zero already-running
rejections, and both start invocations fully consumed. -/
theorem double_spawn_on_concurrent_start :
    Reachable c1Init c1Final ∧
    c1Final.live = [1, 2] ∧ c1Final.spawned = [1, 2] ∧
    c1Final.alreadyRejects = 0 ∧ c1Final.tasks = [] ∧
    c1Final.server.status = Status.active := by
  refine ⟨?_, rfl, rfl, rfl, rfl, rfl⟩
  exact Relation.ReflTransGen.head (Step.startToProbe _ (by decide) rfl (by decide))
    (Relation.ReflTransGen.head (Step.startToProbe _ (by decide) rfl (by decide))
    (Relation.ReflTransGen.head (Step.probeOk _ (by decide))
    (Relation.ReflTransGen.head (Step.spawnOk _ (by decide))
    (Relation.ReflTransGen.head (Step.probeOk _ (by decide))
    (Relation.ReflTransGen.head (Step.spawnOk _ (by decide))
      Relation.ReflTransGen.refl)))))

/-- Claim C1, amended.  A concurrent `start` is rejected with the
already-active reply — leaving record, live processes and spawn history
unchanged — exactly when the stored `botPid` is live at guard-check time;
the guard is independent of `status` (there is no status guard), so a
second start issued before the first records its pid is not rejected. -/
theorem start_rejected_iff_live_pid (s : Sys) (p : Nat)
    (hp : s.server.botPid = some p) (hl : p ∈ s.live) :
    startGuardBlocked s = true ∧
    (startAlreadyF s).server = s.server ∧
    (startAlreadyF s).live = s.live ∧
    (startAlreadyF s).spawned = s.spawned ∧
    (startAlreadyF s).alreadyRejects = s.alreadyRejects + 1 ∧
    (∀ st : Status,
      startGuardBlocked { s with server := { s.server with status := st } } =
        startGuardBlocked s) := by
  refine ⟨?_, rfl, rfl, rfl, rfl, fun st => rfl⟩
  simp [startGuardBlocked, hp, hl]

/-- Claim C1, witness: a running target with live pid 1 blocks a concurrent
start. -/
theorem start_rejected_iff_live_pid_witness :
    c2Init.server.botPid = some 1 ∧ 1 ∈ c2Init.live ∧
    startGuardBlocked c2Init = true ∧
    (startAlreadyF c2Init).server = c2Init.server ∧
    (startAlreadyF c2Init).spawned = c2Init.spawned :=
  ⟨rfl, by decide,
   (start_rejected_iff_live_pid c2Init 1 rfl (by decide)).1,
   (start_rejected_iff_live_pid c2Init 1 rfl (by decide)).2.1,
   (start_rejected_iff_live_pid c2Init 1 rfl (by decide)).2.2.2.1⟩

/-! ## Claim C2 — stop vs. exit notification -/

/-- Claim C2, counterexample.  The claim states that a stop and an onExit
arriving close together never re-trigger auto-restart REGARDLESS of the
order of the two calls.  In the order exit-then-stop with `autoRestart`
set, `handleBotExit` schedules the 5-second restart timer from its
snapshot; the subsequent `stopBot` clears `autoRestart` but cannot cancel
the timer, and the fired timer's `startBot` never re-checks the flag: the
run below stops the target (status stopped, `autoRestart = false`, one
timer pending) and still ends running again with a fresh worker (pid 2). -/
theorem restart_retriggered_after_stop :
    Reachable c2Init c2AfterStop ∧
    c2AfterStop.server.status = Status.stopped ∧
    c2AfterStop.server.autoRestart = false ∧
    c2AfterStop.restartTimers = 1 ∧
    Reachable c2AfterStop c2Final ∧
    c2Final.server.status = Status.active ∧
    c2Final.live = [2] ∧ c2Final.spawned = [1, 2] := by
  refine ⟨?_, rfl, rfl, rfl, ?_, rfl, rfl, rfl⟩
  · exact Relation.ReflTransGen.head (Step.procDies _ 1 (by decide))
      (Relation.ReflTransGen.head (Step.exitHandle _ (by decide) rfl)
      (Relation.ReflTransGen.head (Step.exitFinish _ true true (by decide))
      (Relation.ReflTransGen.head (Step.stopRun _ (by decide))
        Relation.ReflTransGen.refl)))
  · exact Relation.ReflTransGen.head (Step.timerFires _ (by decide))
      (Relation.ReflTransGen.head (Step.startToProbe _ (by decide) rfl (by decide))
      (Relation.ReflTransGen.head (Step.probeOk _ (by decide))
      (Relation.ReflTransGen.head (Step.spawnOk _ (by decide))
        Relation.ReflTransGen.refl)))

/-- Claim C2, amended.  An onExit arriving while status is not `'نشط'` is
ignored as an already-handled duplicate: it changes neither the record nor
the restart timers nor the notification count; in particular a stop
followed by the onExit it provoked is safe, because stop always leaves
status `'متوقف'`.  (Only the reverse order, refuted above, re-triggers
auto-restart.) -/
theorem stop_then_exit_ignored (s : Sys) :
    (stopRunF s).server.status ≠ Status.active ∧
    (exitIgnoredF (stopRunF s)).server = (stopRunF s).server ∧
    (exitIgnoredF (stopRunF s)).restartTimers = s.restartTimers ∧
    (exitIgnoredF (stopRunF s)).notices = s.notices ∧
    (∀ t : Sys, t.server.status ≠ Status.active →
      (exitIgnoredF t).server = t.server ∧
      (exitIgnoredF t).restartTimers = t.restartTimers ∧
      (exitIgnoredF t).notices = t.notices ∧
      (exitIgnoredF t).live = t.live) := by
  refine ⟨by simp [stopRunF], rfl, rfl, rfl, fun t _ => ⟨rfl, rfl, rfl, rfl⟩⟩

/-- Claim C2, witness: stop-then-exit on a running target schedules no
restart and sends no notification. -/
theorem stop_then_exit_ignored_witness :
    (stopRunF c2Init).server.status ≠ Status.active ∧
    (exitIgnoredF (stopRunF c2Init)).restartTimers = c2Init.restartTimers ∧
    (exitIgnoredF (stopRunF c2Init)).notices = c2Init.notices :=
  ⟨(stop_then_exit_ignored c2Init).1,
   (stop_then_exit_ignored c2Init).2.2.1,
   (stop_then_exit_ignored c2Init).2.2.2.1⟩

/-! ## Claim C3 — `workerProcessId` vs. liveness -/

/-- Claim C3, counterexample.  The claim states that `workerProcessId` is
non-null IFF a liveness-checked process is believed to exist for the
target.  Continuing the double-start run: when the first worker (pid 1)
exits, `handleBotExit` sees status `'نشط'` and clears `botPid` — although
the second worker (pid 2), spawned by the supervisor for this same target
and never reported as exited, is still alive.  The reachable end state has
`botPid = none` with a live worker. -/
theorem live_worker_with_cleared_pid :
    Reachable c1Init c3Final ∧
    c3Final.server.botPid = none ∧
    c3Final.live = [2] ∧
    c3Final.server.status = Status.stopped := by
  refine ⟨?_, rfl, rfl, rfl⟩
  exact Relation.ReflTransGen.head (Step.startToProbe _ (by decide) rfl (by decide))
    (Relation.ReflTransGen.head (Step.startToProbe _ (by decide) rfl (by decide))
    (Relation.ReflTransGen.head (Step.probeOk _ (by decide))
    (Relation.ReflTransGen.head (Step.spawnOk _ (by decide))
    (Relation.ReflTransGen.head (Step.probeOk _ (by decide))
    (Relation.ReflTransGen.head (Step.spawnOk _ (by decide))
    (Relation.ReflTransGen.head (Step.procDies _ 1 (by decide))
    (Relation.ReflTransGen.head (Step.exitHandle _ (by decide) rfl)
    (Relation.ReflTransGen.head (Step.exitFinish _ false false (by decide))
      Relation.ReflTransGen.refl))))))))

/-- Claim C3, amended.  `botPid` is recorded together with status `'نشط'`
by a successful spawn (the pid is then live) and cleared by an observed
exit, by stop, and by the probe/spawn failure catch; the
unsupported-version and resolving transitions leave it untouched; and, as
refuted above, `botPid = none` does not imply that no live worker
remains. -/
theorem botPid_transition_clearing (s : Sys) :
    ((exitHandleF s).server.botPid = none ∧
     (exitHandleF s).server.status = Status.stopped) ∧
    (stopRunF s).server.botPid = none ∧
    ((probeFailF s).server.botPid = none ∧
     (spawnFailSyncF s).server.botPid = none) ∧
    ((spawnOkF s).server.botPid = some s.nextPid ∧
     (spawnOkF s).server.status = Status.active ∧
     s.nextPid ∈ (spawnOkF s).live) ∧
    (probeUnsupportedF s).server.botPid = s.server.botPid ∧
    (startToProbeF s).server.botPid = s.server.botPid := by
  refine ⟨⟨rfl, rfl⟩, rfl, ⟨rfl, rfl⟩, ⟨rfl, rfl, ?_⟩, rfl, rfl⟩
  simp [spawnOkF]

/-- Claim C3, witness: transitions out of running on a concrete running
target clear the pid; the unsupported-version transition does not. -/
theorem botPid_transition_clearing_witness :
    (exitHandleF c2Init).server.botPid = none ∧
    (stopRunF c2Init).server.botPid = none ∧
    (probeUnsupportedF c2Init).server.botPid = c2Init.server.botPid :=
  ⟨(botPid_transition_clearing c2Init).1.1,
   (botPid_transition_clearing c2Init).2.1,
   (botPid_transition_clearing c2Init).2.2.2.2.1⟩

/-! ## Claim C4 — spawn failure handling -/

/-- Claim C4, counterexample.  The claim states that a spawn failure moves
the target from launching to an error(spawn-failed) state and that running
is recorded only once spawn succeeds.  In the code the usual
(asynchronous) spawn failure surfaces as the child's `error` event, which
arrives after line 507 already recorded status `'نشط'` — with
`botPid: undefined`, the failed child having no pid; the failure is then
handled as an ordinary exit back to `'متوقف'`.  The run below reaches a
state that is marked running while no process lives, no pid was ever
handed out, and ends stopped — no error status ever appears. -/
theorem spawn_failure_recorded_running :
    Reachable c4Init c4Mid ∧
    c4Mid.server.status = Status.active ∧
    c4Mid.server.botPid = none ∧
    c4Mid.live = [] ∧
    c4Mid.spawned = [] ∧
    Reachable c4Mid c4End ∧
    c4End.server.status = Status.stopped ∧
    c4End.server.status ≠ Status.connFailed ∧
    c4Mid.server.status ≠ Status.connFailed ∧
    c4Mid.server.status ≠ Status.unsupportedVersion := by
  refine ⟨?_, rfl, rfl, rfl, rfl, ?_, rfl, by decide, by decide, by decide⟩
  · exact Relation.ReflTransGen.head (Step.startToProbe _ (by decide) rfl (by decide))
      (Relation.ReflTransGen.head (Step.probeOk _ (by decide))
      (Relation.ReflTransGen.head (Step.spawnFailAsync _ (by decide))
        Relation.ReflTransGen.refl))
  · exact Relation.ReflTransGen.head (Step.exitHandle _ (by decide) rfl)
      (Relation.ReflTransGen.head (Step.exitFinish _ false false (by decide))
        Relation.ReflTransGen.refl)

/-- Claim C4, amended.  A synchronous spawn exception lands in the shared
catch: status `'فشل الاتصال'`, pid cleared, running never recorded.  An
asynchronous spawn failure first records status `'نشط'` with
`botPid: undefined` (the failed child has no pid, no process lives, no pid
is handed out) and queues the exit event, whose handling returns the
target to `'متوقف'` — there is no dedicated spawn-failed error state. -/
theorem spawn_failure_behavior (s : Sys) :
    ((spawnFailSyncF s).server.status = Status.connFailed ∧
     (spawnFailSyncF s).server.botPid = none) ∧
    ((spawnFailAsyncF s).server.status = Status.active ∧
     (spawnFailAsyncF s).server.botPid = none ∧
     (spawnFailAsyncF s).live = s.live ∧
     (spawnFailAsyncF s).spawned = s.spawned ∧
     (spawnFailAsyncF s).nextPid = s.nextPid ∧
     TaskK.exitEvt ∈ (spawnFailAsyncF s).tasks) ∧
    ((exitHandleF (spawnFailAsyncF s)).server.status = Status.stopped ∧
     (exitHandleF (spawnFailAsyncF s)).server.botPid = none) := by
  refine ⟨⟨rfl, rfl⟩, ⟨rfl, rfl, rfl, rfl, rfl, ?_⟩, ⟨rfl, rfl⟩⟩
  simp [spawnFailAsyncF]

/-- Claim C4, witness: the two spawn-failure modes at a concrete idle
target. -/
theorem spawn_failure_behavior_witness :
    (spawnFailSyncF c4Init).server.status = Status.connFailed ∧
    (spawnFailAsyncF c4Init).server.status = Status.active ∧
    (spawnFailAsyncF c4Init).server.botPid = none :=
  ⟨(spawn_failure_behavior c4Init).1.1, (spawn_failure_behavior c4Init).2.1.1,
   (spawn_failure_behavior c4Init).2.1.2.1⟩

/-! ## Claim C5 — stop is idempotent and unconditional -/

/-- Claim C5 (confirmed).  `stopBot` unconditionally sets status `'متوقف'`,
clears `autoRestart` and `botPid`; a second stop reproduces exactly the
same record and process set; stopping an already-idle target is a no-op on
the record and the processes; and a failed signal delivery to a dead pid
is swallowed — the record update still happens and no live process is
touched. -/
theorem stop_idempotent (s : Sys) :
    ((stopRunF s).server.status = Status.stopped ∧
     (stopRunF s).server.autoRestart = false ∧
     (stopRunF s).server.botPid = none) ∧
    ((stopRunF (stopRunF s)).server = (stopRunF s).server ∧
     (stopRunF (stopRunF s)).live = (stopRunF s).live) ∧
    (s.server.status = Status.stopped → s.server.autoRestart = false →
      s.server.botPid = none →
      ((stopRunF s).server = s.server ∧ (stopRunF s).live = s.live ∧
       (stopRunF s).tasks = s.tasks.erase TaskK.stopReq)) ∧
    (∀ p : Nat, s.server.botPid = some p → p ∉ s.live →
      ((stopRunF s).live = s.live ∧
       (stopRunF s).server.status = Status.stopped ∧
       (stopRunF s).server.botPid = none)) := by
  obtain ⟨⟨ty, st, pid, ar, no⟩, lv, np, sp, tk, rt, nt, arj⟩ := s
  refine ⟨⟨rfl, rfl, rfl⟩, ⟨rfl, rfl⟩, ?_, ?_⟩
  · intro h1 h2 h3
    subst h1; subst h2; subst h3
    exact ⟨rfl, rfl, by simp [stopRunF]⟩
  · intro p hp hnl
    subst hp
    refine ⟨?_, rfl, rfl⟩
    simp [stopRunF, List.erase_of_not_mem hnl, hnl]

/-- Claim C5, witness: stopping an already-idle target changes nothing;
stopping a target whose stored pid is dead swallows the failure and still
normalises the record. -/
theorem stop_idempotent_witness :
    ((stopRunF idleW).server = idleW.server ∧ (stopRunF idleW).live = idleW.live) ∧
    ((stopRunF staleW).live = staleW.live ∧
     (stopRunF staleW).server.status = Status.stopped) :=
  ⟨⟨((stop_idempotent idleW).2.2.1 rfl rfl rfl).1,
    ((stop_idempotent idleW).2.2.1 rfl rfl rfl).2.1⟩,
   ⟨((stop_idempotent staleW).2.2.2 3 rfl (by decide)).1,
    ((stop_idempotent staleW).2.2.2 3 rfl (by decide)).2.1⟩⟩

/-! ## Claim C6 — `createUnique` on the versions collection -/

/-- Claim C6 (confirmed).  `Versions.create` fails with the DuplicateKey
condition (`code 11000`) and leaves the collection unchanged when some
stored version already carries the same protocol number, and appends the
record otherwise. -/
theorem versionsCreate_unique (versions : List VersionRec) (v : VersionRec) :
    ((∃ w ∈ versions, w.protocol = v.protocol) →
      versionsCreate versions v = (Except.error 11000, versions)) ∧
    ((∀ w ∈ versions, w.protocol ≠ v.protocol) →
      versionsCreate versions v = (Except.ok (), versions ++ [v])) := by
  constructor
  · rintro ⟨w, hw, he⟩
    rw [versionsCreate, if_pos]
    exact List.any_eq_true.mpr ⟨w, hw, by simpa using he⟩
  · intro h
    rw [versionsCreate, if_neg]
    intro hc
    obtain ⟨w, hw, he⟩ := List.any_eq_true.mp hc
    exact h w hw (by simpa using he)

/-- Claim C6, witness: duplicate protocol 818 is rejected with the
collection unchanged; a fresh protocol 800 is appended. -/
theorem versionsCreate_unique_witness :
    versionsCreate [⟨"bedrock", 818, "1.21.90"⟩] ⟨"bedrock", 818, "other"⟩ =
      (Except.error 11000, [⟨"bedrock", 818, "1.21.90"⟩]) ∧
    versionsCreate [⟨"bedrock", 818, "1.21.90"⟩] ⟨"bedrock", 800, "1.21.80"⟩ =
      (Except.ok (), [⟨"bedrock", 818, "1.21.90"⟩, ⟨"bedrock", 800, "1.21.80"⟩]) :=
  ⟨(versionsCreate_unique _ _).1 ⟨⟨"bedrock", 818, "1.21.90"⟩, by decide, rfl⟩,
   (versionsCreate_unique _ _).2 (by decide)⟩

/-! ## Claim C7 — startup recovery of the backing files -/

/-- Claim C7, counterexample.  The claim states that a missing, corrupt, OR
OTHERWISE UNREADABLE backing file is treated as a default collection and
that the only fatal startup condition is failing to initialise the storage
directory.  In the code `readWithDefault` recovers only `ENOENT` and
`SyntaxError`; any other read error (e.g. permission denied) is rethrown
to the outer catch, which exits the process — fatal even though the
storage directory was initialised (first conjunct).  Missing and corrupt
files are indeed recovered (second and third conjuncts). -/
theorem loadDb_unreadable_is_fatal :
    loadDb true (0 : Nat) 0 0 0 (.ok 1) .otherError (.ok 2) (.ok 3) = none ∧
    loadDb true (0 : Nat) 0 0 0 (.ok 1) .enoent (.ok 2) (.ok 3) =
      some (1, 0, 2, 3) ∧
    loadDb true (0 : Nat) 0 0 0 (.ok 1) .syntaxError (.ok 2) (.ok 3) =
      some (1, 0, 2, 3) := by
  exact ⟨rfl, rfl, rfl⟩

/-- Claim C7, amended.  Startup is fatal when the storage directory cannot
be initialised AND when any backing file fails to read with an error other
than missing-file or corrupt-content; a missing (`ENOENT`) or corrupt
(`SyntaxError`) file falls back to its default and startup proceeds with
the recovered values. -/
theorem loadDb_recovery {α : Type} (mkdirOk : Bool) (d1 d2 d3 d4 : α)
    (rc ru rs rv : ReadResult α) :
    (mkdirOk = false →
      loadDb mkdirOk d1 d2 d3 d4 rc ru rs rv = none) ∧
    (rc = .otherError ∨ ru = .otherError ∨ rs = .otherError ∨ rv = .otherError →
      loadDb mkdirOk d1 d2 d3 d4 rc ru rs rv = none) ∧
    (mkdirOk = true →
      ∀ c u s v : α, readWithDefault rc d1 = .ok c → readWithDefault ru d2 = .ok u →
        readWithDefault rs d3 = .ok s → readWithDefault rv d4 = .ok v →
        loadDb mkdirOk d1 d2 d3 d4 rc ru rs rv = some (c, u, s, v)) ∧
    (∀ x : α, readWithDefault (ReadResult.enoent : ReadResult α) x = .ok x ∧
      readWithDefault (ReadResult.syntaxError : ReadResult α) x = .ok x) := by
  refine ⟨?_, ?_, ?_, fun x => ⟨rfl, rfl⟩⟩
  · intro h; subst h; rfl
  · intro h
    cases mkdirOk with
    | false => rfl
    | true =>
      rcases h with h | h | h | h <;> subst h <;> simp [loadDb, readWithDefault]
  · intro hm c u s v h1 h2 h3 h4
    subst hm
    simp [loadDb, h1, h2, h3, h4]

/-- Claim C7, witness: concrete fatal and recovered startups. -/
theorem loadDb_recovery_witness :
    loadDb false (0 : Nat) 0 0 0 (.ok 1) (.ok 1) (.ok 1) (.ok 1) = none ∧
    loadDb true (0 : Nat) 0 0 0 .otherError (.ok 1) (.ok 1) (.ok 1) = none ∧
    loadDb true (5 : Nat) 6 7 8 .enoent .syntaxError (.ok 1) (.ok 2) =
      some (5, 6, 1, 2) :=
  ⟨(loadDb_recovery false 0 0 0 0 (.ok 1) (.ok 1) (.ok 1) (.ok 1)).1 rfl,
   (loadDb_recovery true 0 0 0 0 .otherError (.ok 1) (.ok 1) (.ok 1)).2.1
     (Or.inl rfl),
   (loadDb_recovery true 5 6 7 8 .enoent .syntaxError (.ok 1) (.ok 2)).2.2.1
     rfl 5 6 1 2 rfl rfl rfl rfl⟩

/-! ## Claim C8 — dense display-name compaction -/

/-- Claim C8 (confirmed).  After `reorderServers`, the owner's servers — in
the compaction order the code uses (the stable sort of the owner's
records) — carry exactly the names `S-1, S-2, …` positionally, so the
numbering is dense with no gaps (ids assumed distinct, as generated ids
are); and the concrete scenario of creating three targets through the
wizard pipeline and deleting the second yields names `S-1, S-2` for the
surviving records (ids 1 and 3), not `S-1, S-3`. -/
theorem reorder_dense_names (servers : List Srv) (uid : Int)
    (hnd : (servers.map (fun s => s.sid)).Nodup) :
    (∀ i (hi : i < (sortByCreated (servers.filter (fun s => s.userId == uid))).length),
        nameOf (reorderServers servers uid)
          ((sortByCreated (servers.filter (fun s => s.userId == uid))).get ⟨i, hi⟩).sid =
          some ("S-" ++ toString (i + 1))) ∧
    c8Scenario.map (fun s => s.serverName) = ["S-1", "S-2"] ∧
    c8Scenario.map (fun s => s.sid) = [1, 3] := by
  refine ⟨?_, rfl, rfl⟩
  intro i hi
  have hperm : (sortByCreated (servers.filter (fun s => s.userId == uid))).Perm
      (servers.filter (fun s => s.userId == uid)) := sortByCreated_perm _
  have hnd2 : ((sortByCreated (servers.filter (fun s => s.userId == uid))).map
      (fun s => s.sid)).Nodup := by
    have hsub : ((servers.filter (fun s => s.userId == uid)).map
        (fun s => s.sid)).Sublist (servers.map (fun s => s.sid)) :=
      (List.filter_sublist _).map _
    exact ((hperm.map _).nodup_iff).mpr (hnd.sublist hsub)
  have hsnap : ∀ r ∈ sortByCreated (servers.filter (fun s => s.userId == uid)),
      nameOf servers r.sid = some r.serverName := by
    intro r hr
    exact nameOf_of_mem_nodup servers hnd r
      (List.mem_of_mem_filter (hperm.mem_iff.mp hr))
  have hmain := renameSeq_names _ servers 1 hnd2 hsnap i hi
  rw [reorderServers]
  rw [hmain]
  rw [Nat.add_comm]

/-- Claim C8, witness: a gapped two-server collection is compacted to
`S-1, S-2`. -/
theorem reorder_dense_names_witness :
    nameOf (reorderServers reorderWitnessList 7)
      ((sortByCreated (reorderWitnessList.filter (fun s => s.userId == 7))).get
        ⟨0, by decide⟩).sid = some ("S-" ++ toString (0 + 1)) ∧
    nameOf (reorderServers reorderWitnessList 7)
      ((sortByCreated (reorderWitnessList.filter (fun s => s.userId == 7))).get
        ⟨1, by decide⟩).sid = some ("S-" ++ toString (1 + 1)) :=
  ⟨(reorder_dense_names reorderWitnessList 7 (by decide)).1 0 (by decide),
   (reorder_dense_names reorderWitnessList 7 (by decide)).1 1 (by decide)⟩

/-! ## Claim C9 — `updateOne` and its operation verbs -/

/-- Claim C9, counterexample.  The claim states that for EVERY collection
`updateOne` applies the update according to its verb, in particular a
set-insert-if-absent for an add-to-set update.  `Servers.updateOne`
instead spread-merges the payload regardless of the verb: an `$addToSet`
on the `tags` array of a concrete record overwrites the array with the
scalar `2` rather than inserting it. -/
theorem servers_addToSet_is_merged :
    serversUpdateOne
        [[("_id", Val.prim (Prim.str "a")), ("tags", Val.arr [Prim.int 1])]]
        [("_id", Val.prim (Prim.str "a"))]
        "$addToSet" [("tags", Val.prim (Prim.int 2))] =
      [[("_id", Val.prim (Prim.str "a")), ("tags", Val.prim (Prim.int 2))]] ∧
    objGet ((serversUpdateOne
        [[("_id", Val.prim (Prim.str "a")), ("tags", Val.arr [Prim.int 1])]]
        [("_id", Val.prim (Prim.str "a"))]
        "$addToSet" [("tags", Val.prim (Prim.int 2))]).getD 0 []) "tags" ≠
      some (Val.arr [Prim.int 1, Prim.int 2]) := by
  exact ⟨rfl, by decide⟩

/-- Claim C9, amended.  `Users.updateOne` and `Servers.updateOne` select
the record by identity and spread-merge the payload whatever the verb is
(the verb is extracted and ignored); only `Config.updateOne` dispatches on
the verb, with `$set` storing the value, `$addToSet` inserting into the
array if absent, and `$pull` removing by value. -/
theorem updateOne_verbs :
    (∀ (servers : List Obj) (q : Obj) (op1 op2 : String) (payload : Obj),
      serversUpdateOne servers q op1 payload = serversUpdateOne servers q op2 payload) ∧
    (∀ (users : List Obj) (q : Obj) (op1 op2 : String) (payload : Obj),
      usersUpdateOne users q op1 payload = usersUpdateOne users q op2 payload) ∧
    (∀ (config : Obj) (key : String) (v : Val) (up : Bool),
      configUpdateOne config key (.set v) up = some (objSet config key v)) ∧
    (∀ (config : Obj) (key : String) (l : List Prim) (v : Prim) (up : Bool),
      objGet config key = some (.arr l) →
        configUpdateOne config key (.addToSet v) up =
          some (if v ∈ l then config else objSet config key (.arr (l ++ [v])))) ∧
    (∀ (config : Obj) (key : String) (l : List Prim) (v : Prim) (up : Bool),
      objGet config key = some (.arr l) →
        configUpdateOne config key (.pull v) up =
          some (objSet config key (.arr (l.filter (fun x => x != v))))) := by
  refine ⟨fun _ _ _ _ _ => rfl, fun _ _ _ _ _ => rfl, fun _ _ _ _ => rfl, ?_, ?_⟩
  · intro config key l v up h
    simp [configUpdateOne, h, truthy]
    split <;> rfl
  · intro config key l v up h
    simp [configUpdateOne, h, truthy]

/-- Claim C9, witness: `Config.updateOne` really inserts and removes
channel names on the `requiredChannels` array. -/
theorem updateOne_verbs_witness :
    configUpdateOne [("requiredChannels", Val.arr [Prim.str "@a"])]
        "requiredChannels" (.addToSet (Prim.str "@b")) true =
      some [("requiredChannels", Val.arr [Prim.str "@a", Prim.str "@b"])] ∧
    configUpdateOne [("requiredChannels", Val.arr [Prim.str "@a", Prim.str "@b"])]
        "requiredChannels" (.pull (Prim.str "@a")) false =
      some [("requiredChannels", Val.arr [Prim.str "@b"])] := by
  constructor
  · have h := updateOne_verbs.2.2.2.1
      [("requiredChannels", Val.arr [Prim.str "@a"])] "requiredChannels"
      [Prim.str "@a"] (Prim.str "@b") true rfl
    simpa [objSet] using h
  · have h := updateOne_verbs.2.2.2.2
      [("requiredChannels", Val.arr [Prim.str "@a", Prim.str "@b"])]
      "requiredChannels" [Prim.str "@a", Prim.str "@b"] (Prim.str "@a") false rfl
    simpa [objSet] using h

/-! ## Claim C10 — `deleteOne` removes all matches, reports at most 1 -/

/-- Claim C10 (confirmed).  `deleteOne` on the server and version
collections keeps exactly the records that do not match the predicate —
removing every match, not only the first — yet reports `deletedCount = 1`
whenever at least one record matched and `deletedCount = 0` when none
did. -/
theorem deleteOne_removes_all_reports_one (records : List Obj) (q : Obj) :
    (∀ r ∈ (deleteOne records q).2, matchesQuery r q = false) ∧
    (deleteOne records q).2 = records.filter (fun r => !(matchesQuery r q)) ∧
    ((∃ r ∈ records, matchesQuery r q = true) → (deleteOne records q).1 = 1) ∧
    ((∀ r ∈ records, matchesQuery r q = false) → (deleteOne records q).1 = 0) := by
  have hsnd : (deleteOne records q).2 =
      records.filter (fun r => !(matchesQuery r q)) := by
    rw [deleteOne]; split <;> rfl
  refine ⟨?_, hsnd, ?_, ?_⟩
  · intro r hr
    rw [hsnd] at hr
    simpa using (List.of_mem_filter hr)
  · rintro ⟨r, hr, hm⟩
    have hlt : (records.filter (fun r => !(matchesQuery r q))).length <
        records.length := by
      apply List.length_filter_lt_length_iff_exists.mpr
      exact ⟨r, hr, by simp [hm]⟩
    simp [deleteOne, hlt]
  · intro h
    have heq : records.filter (fun r => !(matchesQuery r q)) = records :=
      List.filter_eq_self.mpr (fun r hr => by simp [h r hr])
    have hnlt : ¬ ((records.filter (fun r => !(matchesQuery r q))).length <
        records.length) := by
      rw [heq]
      omega
    simp [deleteOne, hnlt]

/-- Claim C10, witness: both duplicates of a matching record are removed
while `deletedCount` is 1; with no match it is 0. -/
theorem deleteOne_removes_all_reports_one_witness :
    (deleteOne [[("x", Val.prim (Prim.int 1))], [("x", Val.prim (Prim.int 1))],
        [("x", Val.prim (Prim.int 2))]] [("x", Val.prim (Prim.int 1))]).1 = 1 ∧
    (deleteOne [[("x", Val.prim (Prim.int 2))]] [("x", Val.prim (Prim.int 1))]).1 = 0 ∧
    (deleteOne [[("x", Val.prim (Prim.int 1))], [("x", Val.prim (Prim.int 1))],
        [("x", Val.prim (Prim.int 2))]] [("x", Val.prim (Prim.int 1))]).2 =
      [[("x", Val.prim (Prim.int 2))]] :=
  ⟨(deleteOne_removes_all_reports_one _ _).2.2.1
      ⟨[("x", Val.prim (Prim.int 1))], by decide, by decide⟩,
   (deleteOne_removes_all_reports_one _ _).2.2.2 (by decide),
   by decide⟩
